import Mathlib

set_option autoImplicit false

/-! Shallow embedding of the agent-testing form tooling of this repository:
`form_template.py` (template data model and serialization),
`form_server.py` (page validation and navigation), and
`interaction_tracker.py` (interaction tracking and metrics).
Python dictionaries are modelled as insertion-ordered association lists,
`datetime.now()` timestamps as explicit natural-number parameters, and
`re.match` as an explicit matcher function parameter. -/

/-- Closed enumeration of field types (`FieldType` in `form_template.py`). -/
inductive FieldType where
  | text
  | email
  | tel
  | number
  | date
  | select
  | checkbox
  | radio
  | textarea
  | file
  | hidden
deriving DecidableEq, Repr

/-- String value of a field type (the `str`-enum value in `form_template.py`). -/
def FieldType.value : FieldType → String
  | .text => "text"
  | .email => "email"
  | .tel => "tel"
  | .number => "number"
  | .date => "date"
  | .select => "select"
  | .checkbox => "checkbox"
  | .radio => "radio"
  | .textarea => "textarea"
  | .file => "file"
  | .hidden => "hidden"

/-- Lookup of a field type by its string value, modelling the Python enum call
`FieldType(s)`; `none` models the `ValueError` raised on an unknown value. -/
def FieldType.fromString (s : String) : Option FieldType :=
  if s = "text" then some .text
  else if s = "email" then some .email
  else if s = "tel" then some .tel
  else if s = "number" then some .number
  else if s = "date" then some .date
  else if s = "select" then some .select
  else if s = "checkbox" then some .checkbox
  else if s = "radio" then some .radio
  else if s = "textarea" then some .textarea
  else if s = "file" then some .file
  else if s = "hidden" then some .hidden
  else none

/-- Free-form `Dict[str, Any]` metadata, modelled as an ordered string map. -/
abbrev Metadata := List (String × String)

/-- `FieldOption` dataclass of `form_template.py`. -/
structure FieldOption where
  value : String
  label : String
  is_default : Bool := false
deriving DecidableEq, Repr

/-- `FormField` dataclass of `form_template.py`. -/
structure FormField where
  id : String
  name : String
  label : String
  field_type : FieldType
  required : Bool := false
  placeholder : Option String := none
  validation_pattern : Option String := none
  validation_message : Option String := none
  options : List FieldOption := []
  expected_value_type : Option String := none
  css_selector : Option String := none
  css_class : Option String := none
  help_text : Option String := none
deriving DecidableEq, Repr

/-- `FormPage` dataclass of `form_template.py`. -/
structure FormPage where
  page_id : String
  title : String
  description : Option String := none
  fields : List FormField := []
  submit_button_text : String := "Continue"
  submit_button_selector : Option String := none
  back_button_text : Option String := none
  back_button_selector : Option String := none
  validation_required : Bool := true
  css_theme : Option String := none
deriving DecidableEq, Repr

/-- `FormTemplate` dataclass of `form_template.py`. -/
structure FormTemplate where
  template_id : String
  name : String
  description : String
  pages : List FormPage := []
  start_url : String := "/"
  success_url : String := "/success"
  failure_url : String := "/error"
  metadata : Metadata := []
deriving DecidableEq, Repr

/-! Serialized documents. Each key of the JSON object produced or consumed by
`to_dict` / `from_dict` is one slot; an outer `none` means the key is absent
from the document (so `d[k]` raises `KeyError` and `d.get(k, default)` yields
the default). Slots whose values may be JSON `null` carry an inner `Option`. -/

/-- Serialized form of a `FieldOption`. -/
structure FieldOptionDoc where
  value : Option String := none
  label : Option String := none
  is_default : Option Bool := none
deriving DecidableEq, Repr

/-- Serialized form of a `FormField`. -/
structure FieldDoc where
  id : Option String := none
  name : Option String := none
  label : Option String := none
  field_type : Option String := none
  required : Option Bool := none
  placeholder : Option (Option String) := none
  validation_pattern : Option (Option String) := none
  validation_message : Option (Option String) := none
  options : Option (List FieldOptionDoc) := none
  expected_value_type : Option (Option String) := none
  css_selector : Option (Option String) := none
  css_class : Option (Option String) := none
  help_text : Option (Option String) := none
deriving DecidableEq, Repr

/-- Serialized form of a `FormPage`. -/
structure PageDoc where
  page_id : Option String := none
  title : Option String := none
  description : Option (Option String) := none
  fields : Option (List FieldDoc) := none
  submit_button_text : Option String := none
  submit_button_selector : Option (Option String) := none
  back_button_text : Option (Option String) := none
  back_button_selector : Option (Option String) := none
  validation_required : Option Bool := none
  css_theme : Option (Option String) := none
deriving DecidableEq, Repr

/-- Serialized form of a `FormTemplate`. -/
structure TemplateDoc where
  template_id : Option String := none
  name : Option String := none
  description : Option String := none
  pages : Option (List PageDoc) := none
  start_url : Option String := none
  success_url : Option String := none
  failure_url : Option String := none
  metadata : Option Metadata := none
deriving DecidableEq, Repr

/-- Serialization of one option, as written inline by `FormTemplate.to_dict`. -/
def FieldOption.toDoc (o : FieldOption) : FieldOptionDoc :=
  { value := some o.value, label := some o.label, is_default := some o.is_default }

/-- Serialization of one field, as written inline by `FormTemplate.to_dict`. -/
def FormField.toDoc (f : FormField) : FieldDoc :=
  { id := some f.id
    name := some f.name
    label := some f.label
    field_type := some f.field_type.value
    required := some f.required
    placeholder := some f.placeholder
    validation_pattern := some f.validation_pattern
    validation_message := some f.validation_message
    options := some (f.options.map FieldOption.toDoc)
    expected_value_type := some f.expected_value_type
    css_selector := some f.css_selector
    css_class := some f.css_class
    help_text := some f.help_text }

/-- Serialization of one page, as written inline by `FormTemplate.to_dict`. -/
def FormPage.toDoc (p : FormPage) : PageDoc :=
  { page_id := some p.page_id
    title := some p.title
    description := some p.description
    fields := some (p.fields.map FormField.toDoc)
    submit_button_text := some p.submit_button_text
    submit_button_selector := some p.submit_button_selector
    back_button_text := some p.back_button_text
    back_button_selector := some p.back_button_selector
    validation_required := some p.validation_required
    css_theme := some p.css_theme }

/-- `FormTemplate.to_dict`: every key is emitted, optional attributes as null. -/
def FormTemplate.to_dict (t : FormTemplate) : TemplateDoc :=
  { template_id := some t.template_id
    name := some t.name
    description := some t.description
    pages := some (t.pages.map FormPage.toDoc)
    start_url := some t.start_url
    success_url := some t.success_url
    failure_url := some t.failure_url
    metadata := some t.metadata }

/-- Errors raised by `FormTemplate.from_dict`: `keyError k` models Python's
`KeyError` on subscripting a missing key `k` (it carries the key and nothing
else, in particular no location), `valueError s` models the `ValueError`
raised by `FieldType(s)` on an unknown enum value `s`. -/
inductive DeserError where
  | keyError (key : String)
  | valueError (value : String)
deriving DecidableEq, Repr

/-- Deserialization of one option (`opt["value"]`, `opt["label"]`,
`opt.get("is_default", False)` inside `FormTemplate.from_dict`). -/
def optionFromDoc (d : FieldOptionDoc) : Except DeserError FieldOption :=
  match d.value with
  | none => .error (.keyError "value")
  | some v =>
    match d.label with
    | none => .error (.keyError "label")
    | some l => .ok { value := v, label := l, is_default := d.is_default.getD false }

/-- Deserialization of an option list (the options comprehension in
`FormTemplate.from_dict`); the first failing element aborts the loop. -/
def optionsFromDoc : List FieldOptionDoc → Except DeserError (List FieldOption)
  | [] => .ok []
  | d :: ds =>
    match optionFromDoc d with
    | .error e => .error e
    | .ok o =>
      match optionsFromDoc ds with
      | .error e => .error e
      | .ok os => .ok (o :: os)

/-- Deserialization of one field inside `FormTemplate.from_dict`: the options
comprehension runs first, then the `FormField(...)` keyword arguments are
evaluated in order (`field_data["id"]`, `["name"]`, `["label"]`,
`FieldType(field_data["field_type"])`, then the `.get` defaults). -/
def fieldFromDoc (d : FieldDoc) : Except DeserError FormField :=
  match optionsFromDoc (d.options.getD []) with
  | .error e => .error e
  | .ok opts =>
    match d.id with
    | none => .error (.keyError "id")
    | some i =>
      match d.name with
      | none => .error (.keyError "name")
      | some n =>
        match d.label with
        | none => .error (.keyError "label")
        | some l =>
          match d.field_type with
          | none => .error (.keyError "field_type")
          | some fts =>
            match FieldType.fromString fts with
            | none => .error (.valueError fts)
            | some ft =>
              .ok { id := i
                    name := n
                    label := l
                    field_type := ft
                    required := d.required.getD false
                    placeholder := d.placeholder.getD none
                    validation_pattern := d.validation_pattern.getD none
                    validation_message := d.validation_message.getD none
                    options := opts
                    expected_value_type := d.expected_value_type.getD none
                    css_selector := d.css_selector.getD none
                    css_class := d.css_class.getD none
                    help_text := d.help_text.getD none }

/-- Deserialization of a field list (the inner `for field_data in
page_data.get("fields", [])` loop). -/
def fieldsFromDoc : List FieldDoc → Except DeserError (List FormField)
  | [] => .ok []
  | d :: ds =>
    match fieldFromDoc d with
    | .error e => .error e
    | .ok f =>
      match fieldsFromDoc ds with
      | .error e => .error e
      | .ok fs => .ok (f :: fs)

/-- Deserialization of one page inside `FormTemplate.from_dict`: the fields
loop runs first, then `page_data["page_id"]`, `page_data["title"]` and the
`.get` defaults are evaluated in the order of the `FormPage(...)` call. -/
def pageFromDoc (d : PageDoc) : Except DeserError FormPage :=
  match fieldsFromDoc (d.fields.getD []) with
  | .error e => .error e
  | .ok fs =>
    match d.page_id with
    | none => .error (.keyError "page_id")
    | some pid =>
      match d.title with
      | none => .error (.keyError "title")
      | some ti =>
        .ok { page_id := pid
              title := ti
              description := d.description.getD none
              fields := fs
              submit_button_text := d.submit_button_text.getD "Continue"
              submit_button_selector := d.submit_button_selector.getD none
              back_button_text := d.back_button_text.getD none
              back_button_selector := d.back_button_selector.getD none
              validation_required := d.validation_required.getD true
              css_theme := d.css_theme.getD none }

/-- Deserialization of a page list (the outer `for page_data in
data.get("pages", [])` loop). -/
def pagesFromDoc : List PageDoc → Except DeserError (List FormPage)
  | [] => .ok []
  | d :: ds =>
    match pageFromDoc d with
    | .error e => .error e
    | .ok p =>
      match pagesFromDoc ds with
      | .error e => .error e
      | .ok ps => .ok (p :: ps)

/-- `FormTemplate.from_dict`: the pages loop runs over `data.get("pages", [])`
(a document with no `pages` key deserializes to a template with no pages),
then `data["template_id"]`, `data["name"]`, `data["description"]` are
subscripted and the remaining keys read through `.get` with their defaults. -/
def FormTemplate.from_dict (d : TemplateDoc) : Except DeserError FormTemplate :=
  match pagesFromDoc (d.pages.getD []) with
  | .error e => .error e
  | .ok ps =>
    match d.template_id with
    | none => .error (.keyError "template_id")
    | some tid =>
      match d.name with
      | none => .error (.keyError "name")
      | some nm =>
        match d.description with
        | none => .error (.keyError "description")
        | some desc =>
          .ok { template_id := tid
                name := nm
                description := desc
                pages := ps
                start_url := d.start_url.getD "/"
                success_url := d.success_url.getD "/success"
                failure_url := d.failure_url.getD "/error"
                metadata := d.metadata.getD [] }

theorem FieldType.fromString_value (ft : FieldType) :
    FieldType.fromString ft.value = some ft := by
  cases ft <;> rfl

theorem optionFromDoc_toDoc (o : FieldOption) :
    optionFromDoc o.toDoc = Except.ok o := rfl

theorem optionsFromDoc_map_toDoc (l : List FieldOption) :
    optionsFromDoc (l.map FieldOption.toDoc) = Except.ok l := by
  induction l with
  | nil => rfl
  | cons o os ih => simp [optionsFromDoc, optionFromDoc_toDoc, ih]

theorem fieldFromDoc_toDoc (f : FormField) :
    fieldFromDoc f.toDoc = Except.ok f := by
  simp [fieldFromDoc, FormField.toDoc, optionsFromDoc_map_toDoc,
    FieldType.fromString_value, Option.getD]

theorem fieldsFromDoc_map_toDoc (l : List FormField) :
    fieldsFromDoc (l.map FormField.toDoc) = Except.ok l := by
  induction l with
  | nil => rfl
  | cons f fs ih => simp [fieldsFromDoc, fieldFromDoc_toDoc, ih]

theorem pageFromDoc_toDoc (p : FormPage) :
    pageFromDoc p.toDoc = Except.ok p := by
  simp [pageFromDoc, FormPage.toDoc, fieldsFromDoc_map_toDoc, Option.getD]

theorem pagesFromDoc_map_toDoc (l : List FormPage) :
    pagesFromDoc (l.map FormPage.toDoc) = Except.ok l := by
  induction l with
  | nil => rfl
  | cons p ps ih => simp [pagesFromDoc, pageFromDoc_toDoc, ih]

/-- C2: for every valid `FormTemplate` (every field type drawn from the closed
`FieldType` enumeration, which the Lean type enforces), deserializing the
serialized form yields the original template:
`FormTemplate.from_dict (T.to_dict) = T`. -/
theorem from_dict_to_dict_roundtrip (t : FormTemplate) :
    FormTemplate.from_dict t.to_dict = Except.ok t := by
  simp [FormTemplate.from_dict, FormTemplate.to_dict, pagesFromDoc_map_toDoc,
    Option.getD]

/-! Machinery for the missing-required-key behavior of `from_dict`: a document
slot is "full" when its key is present (and, for `field_type`, carries a valid
enum value), and erasing one key from a full document isolates that key's
failure. -/

/-- Option document with every key present. -/
def FieldOptionDoc.full (d : FieldOptionDoc) : Bool :=
  d.value.isSome && d.label.isSome && d.is_default.isSome

/-- Field document with every key present and a valid `field_type` value. -/
def FieldDoc.full (d : FieldDoc) : Bool :=
  d.id.isSome && d.name.isSome && d.label.isSome &&
  (d.field_type.bind FieldType.fromString).isSome &&
  d.required.isSome && d.placeholder.isSome && d.validation_pattern.isSome &&
  d.validation_message.isSome &&
  (match d.options with
   | some ods => ods.all FieldOptionDoc.full
   | none => false) &&
  d.expected_value_type.isSome && d.css_selector.isSome &&
  d.css_class.isSome && d.help_text.isSome

/-- Page document with every key present and full fields. -/
def PageDoc.full (d : PageDoc) : Bool :=
  d.page_id.isSome && d.title.isSome && d.description.isSome &&
  (match d.fields with
   | some fds => fds.all FieldDoc.full
   | none => false) &&
  d.submit_button_text.isSome && d.submit_button_selector.isSome &&
  d.back_button_text.isSome && d.back_button_selector.isSome &&
  d.validation_required.isSome && d.css_theme.isSome

/-- Template document with every key present and full pages. -/
def TemplateDoc.full (d : TemplateDoc) : Bool :=
  d.template_id.isSome && d.name.isSome && d.description.isSome &&
  (match d.pages with
   | some pds => pds.all PageDoc.full
   | none => false) &&
  d.start_url.isSome && d.success_url.isSome &&
  d.failure_url.isSome && d.metadata.isSome

/-- Removal of one template-level required key from a serialized document. -/
def eraseTemplateKey (k : String) (d : TemplateDoc) : TemplateDoc :=
  { d with
    template_id := if k = "template_id" then none else d.template_id
    name := if k = "name" then none else d.name
    description := if k = "description" then none else d.description }

/-- Removal of one page-level required key from a page document. -/
def PageDoc.eraseKey (k : String) (d : PageDoc) : PageDoc :=
  { d with
    page_id := if k = "page_id" then none else d.page_id
    title := if k = "title" then none else d.title }

/-- Removal of one page-level required key from every page of a document. -/
def erasePageKey (k : String) (d : TemplateDoc) : TemplateDoc :=
  { d with pages := d.pages.map (List.map (PageDoc.eraseKey k)) }

/-- Removal of one field-level required key from a field document. -/
def FieldDoc.eraseKey (k : String) (d : FieldDoc) : FieldDoc :=
  { d with
    id := if k = "id" then none else d.id
    name := if k = "name" then none else d.name
    label := if k = "label" then none else d.label
    field_type := if k = "field_type" then none else d.field_type }

/-- Removal of one field-level required key from every field of a page. -/
def PageDoc.eraseFieldKey (k : String) (d : PageDoc) : PageDoc :=
  { d with fields := d.fields.map (List.map (FieldDoc.eraseKey k)) }

/-- Removal of one field-level required key from every field of a document. -/
def eraseFieldKey (k : String) (d : TemplateDoc) : TemplateDoc :=
  { d with pages := d.pages.map (List.map (PageDoc.eraseFieldKey k)) }


theorem optionFromDoc_ok (d : FieldOptionDoc) (h : d.full = true) :
    ∃ o, optionFromDoc d = Except.ok o := by
  rcases hv : d.value with - | v
  · simp [FieldOptionDoc.full, hv] at h
  · rcases hl : d.label with - | l
    · simp [FieldOptionDoc.full, hl] at h
    · simp only [optionFromDoc, hv, hl]
      exact ⟨_, rfl⟩

theorem optionsFromDoc_ok (l : List FieldOptionDoc)
    (h : l.all FieldOptionDoc.full = true) :
    ∃ os, optionsFromDoc l = Except.ok os := by
  induction l with
  | nil => exact ⟨[], rfl⟩
  | cons d ds ih =>
    simp only [List.all_cons, Bool.and_eq_true] at h
    obtain ⟨o, ho⟩ := optionFromDoc_ok d h.1
    obtain ⟨os, hos⟩ := ih h.2
    exact ⟨o :: os, by simp [optionsFromDoc, ho, hos]⟩

theorem fieldFromDoc_ok (d : FieldDoc) (h : d.full = true) :
    ∃ f, fieldFromDoc d = Except.ok f := by
  rcases hod : d.options with - | ods
  · simp [FieldDoc.full, hod] at h
  · rcases hi : d.id with - | i
    · simp [FieldDoc.full, hi] at h
    · rcases hn : d.name with - | n
      · simp [FieldDoc.full, hn] at h
      · rcases hl : d.label with - | l
        · simp [FieldDoc.full, hl] at h
        · rcases hft : d.field_type with - | fts
          · simp [FieldDoc.full, hft] at h
          · rcases hfv : FieldType.fromString fts with - | ft
            · simp [FieldDoc.full, hft, hfv] at h
            · have hops : ods.all FieldOptionDoc.full = true := by
                cases hall : ods.all FieldOptionDoc.full
                · simp [FieldDoc.full, hod, hall] at h
                · rfl
              obtain ⟨ops, hopsok⟩ := optionsFromDoc_ok ods hops
              simp only [fieldFromDoc, hod, hopsok, hi, hn, hl, hft, hfv, Option.getD_some]
              exact ⟨_, rfl⟩

theorem fieldsFromDoc_ok (l : List FieldDoc) (h : l.all FieldDoc.full = true) :
    ∃ fs, fieldsFromDoc l = Except.ok fs := by
  induction l with
  | nil => exact ⟨[], rfl⟩
  | cons d ds ih =>
    simp only [List.all_cons, Bool.and_eq_true] at h
    obtain ⟨f, hf⟩ := fieldFromDoc_ok d h.1
    obtain ⟨fs, hfs⟩ := ih h.2
    exact ⟨f :: fs, by simp [fieldsFromDoc, hf, hfs]⟩

theorem pageFromDoc_ok (d : PageDoc) (h : d.full = true) :
    ∃ p, pageFromDoc d = Except.ok p := by
  rcases hfd : d.fields with - | fds
  · simp [PageDoc.full, hfd] at h
  · rcases hpid : d.page_id with - | pid
    · simp [PageDoc.full, hpid] at h
    · rcases hti : d.title with - | ti
      · simp [PageDoc.full, hti] at h
      · have hfds : fds.all FieldDoc.full = true := by
          cases hall : fds.all FieldDoc.full
          · simp [PageDoc.full, hfd, hall] at h
          · rfl
        obtain ⟨fs, hfs⟩ := fieldsFromDoc_ok fds hfds
        simp only [pageFromDoc, hfd, hfs, hpid, hti, Option.getD_some]
        exact ⟨_, rfl⟩

theorem pagesFromDoc_ok (l : List PageDoc) (h : l.all PageDoc.full = true) :
    ∃ ps, pagesFromDoc l = Except.ok ps := by
  induction l with
  | nil => exact ⟨[], rfl⟩
  | cons d ds ih =>
    simp only [List.all_cons, Bool.and_eq_true] at h
    obtain ⟨p, hp⟩ := pageFromDoc_ok d h.1
    obtain ⟨ps, hps⟩ := ih h.2
    exact ⟨p :: ps, by simp [pagesFromDoc, hp, hps]⟩

theorem fieldFromDoc_eraseKey (d : FieldDoc) (h : d.full = true) (k : String)
    (hk : k ∈ (["id", "name", "label", "field_type"] : List String)) :
    fieldFromDoc (d.eraseKey k) = Except.error (.keyError k) := by
  rcases hod : d.options with - | ods
  · simp [FieldDoc.full, hod] at h
  · rcases hi : d.id with - | i
    · simp [FieldDoc.full, hi] at h
    · rcases hn : d.name with - | n
      · simp [FieldDoc.full, hn] at h
      · rcases hl : d.label with - | l
        · simp [FieldDoc.full, hl] at h
        · have hops : ods.all FieldOptionDoc.full = true := by
            cases hall : ods.all FieldOptionDoc.full
            · simp [FieldDoc.full, hod, hall] at h
            · rfl
          obtain ⟨ops, hopsok⟩ := optionsFromDoc_ok ods hops
          simp only [List.mem_cons, List.mem_singleton, List.not_mem_nil,
            or_false] at hk
          rcases hk with rfl | rfl | rfl | rfl <;>
            simp [fieldFromDoc, FieldDoc.eraseKey, hod, hopsok, hi, hn, hl]

theorem pageFromDoc_eraseKey (d : PageDoc) (h : d.full = true) (k : String)
    (hk : k ∈ (["page_id", "title"] : List String)) :
    pageFromDoc (d.eraseKey k) = Except.error (.keyError k) := by
  rcases hfd : d.fields with - | fds
  · simp [PageDoc.full, hfd] at h
  · rcases hpid : d.page_id with - | pid
    · simp [PageDoc.full, hpid] at h
    · have hfds : fds.all FieldDoc.full = true := by
        cases hall : fds.all FieldDoc.full
        · simp [PageDoc.full, hfd, hall] at h
        · rfl
      obtain ⟨fs, hfs⟩ := fieldsFromDoc_ok fds hfds
      simp only [List.mem_cons, List.mem_singleton, List.not_mem_nil,
        or_false] at hk
      rcases hk with rfl | rfl <;>
        simp [pageFromDoc, PageDoc.eraseKey, hfd, hfs, hpid]

theorem pageFromDoc_eraseFieldKey (d : PageDoc) (h : d.full = true)
    (fd : FieldDoc) (fds : List FieldDoc) (hfd : d.fields = some (fd :: fds))
    (k : String)
    (hk : k ∈ (["id", "name", "label", "field_type"] : List String)) :
    pageFromDoc (d.eraseFieldKey k) = Except.error (.keyError k) := by
  have hfull : fd.full = true := by
    cases hc : fd.full
    · simp [PageDoc.full, hfd, hc] at h
    · rfl
  have herr := fieldFromDoc_eraseKey fd hfull k hk
  simp [pageFromDoc, PageDoc.eraseFieldKey, hfd, fieldsFromDoc, herr]

/-- C9 (amended): erasing any template-level, page-level, or field-level
required key from a fully-present serialized document makes
`FormTemplate.from_dict` fail with a `KeyError` carrying exactly the missing
key and nothing else (in particular no template/page/field location, and no
SchemaError kind exists in the code). -/
theorem from_dict_missing_key_keyError (d : TemplateDoc) (hfull : d.full = true)
    (pd : PageDoc) (pds : List PageDoc) (hp : d.pages = some (pd :: pds))
    (fd : FieldDoc) (fds : List FieldDoc) (hf : pd.fields = some (fd :: fds)) :
    (∀ k ∈ (["template_id", "name", "description"] : List String),
      FormTemplate.from_dict (eraseTemplateKey k d) = Except.error (.keyError k)) ∧
    (∀ k ∈ (["page_id", "title"] : List String),
      FormTemplate.from_dict (erasePageKey k d) = Except.error (.keyError k)) ∧
    (∀ k ∈ (["id", "name", "label", "field_type"] : List String),
      FormTemplate.from_dict (eraseFieldKey k d) = Except.error (.keyError k)) := by
  have hpall : (pd :: pds).all PageDoc.full = true := by
    cases hall : (pd :: pds).all PageDoc.full
    · simp [TemplateDoc.full, hp, hall] at hfull
    · rfl
  have hpdfull : pd.full = true := by
    simp only [List.all_cons, Bool.and_eq_true] at hpall
    exact hpall.1
  obtain ⟨ps, hps⟩ := pagesFromDoc_ok (pd :: pds) hpall
  rcases htid : d.template_id with - | tid
  · simp [TemplateDoc.full, htid] at hfull
  rcases hnm : d.name with - | nm
  · simp [TemplateDoc.full, hnm] at hfull
  rcases hdesc : d.description with - | desc
  · simp [TemplateDoc.full, hdesc] at hfull
  refine ⟨?_, ?_, ?_⟩
  · intro k hk
    simp only [List.mem_cons, List.mem_singleton, List.not_mem_nil, or_false] at hk
    rcases hk with rfl | rfl | rfl <;>
      simp [FormTemplate.from_dict, eraseTemplateKey, hp, hps, htid, hnm, hdesc]
  · intro k hk
    have herr := pageFromDoc_eraseKey pd hpdfull k hk
    simp [FormTemplate.from_dict, erasePageKey, hp, pagesFromDoc, herr]
  · intro k hk
    have herr := pageFromDoc_eraseFieldKey pd hpdfull fd fds hf k hk
    simp [FormTemplate.from_dict, eraseFieldKey, hp, pagesFromDoc, herr]

/-- C9 counterexample: a serialized template document missing the
template-level `pages` key does not fail at all — `from_dict` reads pages via
`data.get("pages", [])` and succeeds with an empty page list, contradicting
the claim that deserialization of a document missing a required key fails. -/
theorem from_dict_missing_pages_succeeds :
    FormTemplate.from_dict
      { template_id := some "t1", name := some "T", description := some "desc"
        pages := none, start_url := some "/", success_url := some "/success"
        failure_url := some "/error", metadata := some [] } =
    Except.ok { template_id := "t1", name := "T", description := "desc"
                pages := [], start_url := "/", success_url := "/success"
                failure_url := "/error", metadata := [] } := rfl

/-- Fully-present one-page one-field serialized document used to witness the
missing-key behavior of `from_dict`. -/
def c9doc : TemplateDoc :=
  { template_id := some "t1", name := some "T", description := some "D"
    pages := some
      [{ page_id := some "p1", title := some "P", description := some none
         fields := some
           [{ id := some "f1", name := some "fname", label := some "F"
              field_type := some "text", required := some false
              placeholder := some none, validation_pattern := some none
              validation_message := some none, options := some []
              expected_value_type := some none, css_selector := some none
              css_class := some none, help_text := some none }]
         submit_button_text := some "Continue", submit_button_selector := some none
         back_button_text := some none, back_button_selector := some none
         validation_required := some true, css_theme := some none }]
    start_url := some "/", success_url := some "/success"
    failure_url := some "/error", metadata := some [] }

/-- Witness for the amended C9 theorem at a concrete full document. -/
theorem from_dict_missing_key_keyError_witness :
    FormTemplate.from_dict (eraseTemplateKey "template_id" c9doc) =
      Except.error (.keyError "template_id") ∧
    FormTemplate.from_dict (erasePageKey "page_id" c9doc) =
      Except.error (.keyError "page_id") ∧
    FormTemplate.from_dict (eraseFieldKey "field_type" c9doc) =
      Except.error (.keyError "field_type") := by
  have h := from_dict_missing_key_keyError c9doc (by decide) _ _ rfl _ _ rfl
  exact ⟨h.1 "template_id" (by simp), h.2.1 "page_id" (by simp),
    h.2.2 "field_type" (by simp)⟩

/-! Embedding of `form_server.py`. Python dicts are insertion-ordered maps
with unique keys, modelled as association lists where `dictSet` replaces the
binding in place. The HTML body produced by `_generate_page_html` is
presentation detail; a response is modelled by which page is rendered for
which session with which error map, which fully determines that HTML. -/

/-- Lookup in a Python-dict association list (`d.get(k)` / `k in d`). -/
def dictGet {α : Type} : List (String × α) → String → Option α
  | [], _ => none
  | p :: d, k => if p.1 = k then some p.2 else dictGet d k

/-- Assignment `d[k] = v` in a Python dict: replaces the existing binding in
place, else appends in insertion order. -/
def dictSet {α : Type} : List (String × α) → String → α → List (String × α)
  | [], k, v => [(k, v)]
  | p :: d, k, v => if p.1 = k then (k, v) :: d else p :: dictSet d k v

/-- Number of bindings a key has (1 or 0 in a real dict). -/
def countKey {α : Type} : List (String × α) → String → Nat
  | [], _ => 0
  | p :: d, k => (if p.1 = k then 1 else 0) + countKey d k

/-- Python `or` between an optional string and a default: an absent or empty
string falls back to the default. -/
def pyOrStr (o : Option String) (dflt : String) : String :=
  match o with
  | some s => if s = "" then dflt else s
  | none => dflt

/-- Python `str.strip()`: removal of leading and trailing whitespace
(space, tab, newline, carriage return), written with structural list
recursion so that it evaluates on concrete strings. -/
def pyStrip (s : String) : String :=
  ⟨((s.data.dropWhile Char.isWhitespace).reverse.dropWhile
      Char.isWhitespace).reverse⟩

/-- Python truthiness of an `Optional[str]`: `None` and `""` are falsy. -/
def pyTruthy : Option String → Bool
  | none => false
  | some s => s != ""

/-- Python f-string rendering of an `Optional[str]` (as in
`f"?session={session}"`, where `None` prints as `"None"`). -/
def formatOptStr : Option String → String
  | none => "None"
  | some s => s

/-- First statement of the `_validate_page` loop body (`if field.required:`):
a missing upload for a required file field, or an absent, empty or
whitespace-only value for any other required field, stores
`"<label> is required"` under the field's name. -/
def requiredCheck (form_data files : List (String × String))
    (errors : List (String × String)) (f : FormField) :
    List (String × String) :=
  if f.required then
    if f.field_type = FieldType.file then
      if (dictGet files f.name).isSome then errors
      else dictSet errors f.name (f.label ++ " is required")
    else
      match dictGet form_data f.name with
      | none => dictSet errors f.name (f.label ++ " is required")
      | some v =>
        if v = "" ∨ pyStrip v = "" then
          dictSet errors f.name (f.label ++ " is required")
        else errors
  else errors

/-- Second statement of the `_validate_page` loop body
(`if field.validation_pattern:`): a truthy value failing `re.match` stores the
field's custom message or `"<label> format is invalid"`. `reMatch pat v`
stands for the truthiness of `re.match(pat, str(v))`. -/
def patternCheck (reMatch : String → String → Bool)
    (form_data : List (String × String))
    (errors : List (String × String)) (f : FormField) :
    List (String × String) :=
  match f.validation_pattern with
  | none => errors
  | some pat =>
    if pat = "" then errors
    else
      match dictGet form_data f.name with
      | none => errors
      | some v =>
        if v ≠ "" ∧ ¬ reMatch pat v then
          dictSet errors f.name
            (pyOrStr f.validation_message (f.label ++ " format is invalid"))
        else errors

/-- One loop iteration of `FormServer._validate_page` for one field, threading
the `errors` dict through the two checks in source order. -/
def validateStep (reMatch : String → String → Bool)
    (form_data files : List (String × String))
    (errors : List (String × String)) (f : FormField) :
    List (String × String) :=
  patternCheck reMatch form_data (requiredCheck form_data files errors f) f

/-- `FormServer._validate_page`: fold of `validateStep` over the page's fields
starting from an empty error dict. -/
def validate_page (reMatch : String → String → Bool) (page : FormPage)
    (form_data files : List (String × String)) : List (String × String) :=
  page.fields.foldl (validateStep reMatch form_data files) []

/-- Value stored per field in a session's page data: the submitted string, or
`{"filename": ..., "size": 0}` for file fields. -/
inductive StoredValue where
  | text (value : String)
  | file (filename : String) (size : Nat)
deriving DecidableEq, Repr

/-- Mutable state of a `FormServer`: registered templates and
`session_data[session_id][page_id][field_name]`. -/
structure ServerState where
  templates : List (String × FormTemplate) := []
  session_data : List (String × List (String × List (String × StoredValue))) := []
deriving DecidableEq, Repr

/-- `FormServer.register_template`. -/
def register_template (st : ServerState) (t : FormTemplate) : ServerState :=
  { st with templates := dictSet st.templates t.template_id t }

/-- Outcome of a request. `html tid pid sess errors` stands for the
`HTMLResponse` produced by `_generate_page_html(template, page, session,
errors)` — those arguments determine the HTML text; `redirect` is a 302
`RedirectResponse`; `httpError` an `HTTPException`. -/
inductive Response where
  | httpError (status : Nat) (detail : String)
  | html (template_id page_id : String) (session : Option String)
      (errors : List (String × String))
  | redirect (url : String)
deriving DecidableEq, Repr

/-- `GET /apply/{template_id}/page/{page_id}` (`show_page` in
`form_server.py`): 404 on unknown template or page, otherwise it renders the
requested page with no errors — with no check of any session state. -/
def show_page (st : ServerState) (template_id page_id : String)
    (session : Option String) : Response :=
  match dictGet st.templates template_id with
  | none => .httpError 404 "Template not found"
  | some template =>
    match template.pages.find? (fun p => p.page_id == page_id) with
    | none => .httpError 404 "Page not found"
    | some page => .html template_id page.page_id session []

/-- `POST /apply/{template_id}/page/{page_id}` (`submit_page` in
`form_server.py`). After the two 404 checks the handler executes
`form_data = await request.form()` and then `files = await request.files()`
(form_server.py:76); the Starlette/FastAPI `Request` object has no `files`
method, so every request reaching that line raises `AttributeError`, which
the framework surfaces as a 500 response. The session-store, validation and
redirect code below that line (form_server.py:78-110) is therefore
unreachable and the server state is left unchanged. -/
def submit_page (st : ServerState) (template_id page_id : String)
    (session : Option String) (form_data : List (String × String)) :
    ServerState × Response :=
  match dictGet st.templates template_id with
  | none => (st, .httpError 404 "Template not found")
  | some template =>
    match template.pages.find? (fun p => p.page_id == page_id) with
    | none => (st, .httpError 404 "Page not found")
    | some _ => (st, .httpError 500 "AttributeError")

theorem dictGet_dictSet_self {α : Type} (d : List (String × α)) (k : String)
    (v : α) : dictGet (dictSet d k v) k = some v := by
  induction d with
  | nil => simp [dictGet, dictSet]
  | cons p d ih =>
    by_cases h : p.1 = k
    · simp [dictSet, h, dictGet]
    · simp [dictSet, h, dictGet, ih]

theorem dictGet_dictSet_ne {α : Type} (d : List (String × α)) (k k' : String)
    (v : α) (h : k' ≠ k) : dictGet (dictSet d k v) k' = dictGet d k' := by
  induction d with
  | nil => simp [dictGet, dictSet, h.symm]
  | cons p d ih =>
    by_cases hp : p.1 = k
    · subst hp
      simp [dictSet, dictGet, h.symm]
    · simp [dictSet, hp, dictGet, ih]

theorem countKey_dictSet_self {α : Type} (d : List (String × α)) (k : String)
    (v : α) : countKey (dictSet d k v) k = max (countKey d k) 1 := by
  induction d with
  | nil => simp [countKey, dictSet]
  | cons p d ih =>
    by_cases h : p.1 = k
    · simp [dictSet, h, countKey]
    · simp [dictSet, h, countKey, ih]

theorem countKey_dictSet_ne {α : Type} (d : List (String × α)) (k k' : String)
    (v : α) (h : k' ≠ k) : countKey (dictSet d k v) k' = countKey d k' := by
  induction d with
  | nil => simp [countKey, dictSet, h.symm]
  | cons p d ih =>
    by_cases hp : p.1 = k
    · subst hp
      simp [dictSet, countKey, h.symm]
    · simp [dictSet, hp, countKey, ih]

theorem requiredCheck_preserves (form_data files errors : List (String × String))
    (f : FormField) (k : String) (h : k ≠ f.name) :
    dictGet (requiredCheck form_data files errors f) k = dictGet errors k := by
  unfold requiredCheck
  by_cases hreq : f.required = true
  · by_cases hft : f.field_type = FieldType.file
    · by_cases hfile : (dictGet files f.name).isSome <;>
        simp [hreq, hft, hfile, dictGet_dictSet_ne _ _ _ _ h]
    · rcases hfd : dictGet form_data f.name with - | v
      · simp [hreq, hft, hfd, dictGet_dictSet_ne _ _ _ _ h]
      · by_cases hv : v = "" ∨ pyStrip v = "" <;>
          simp [hreq, hft, hfd, hv, dictGet_dictSet_ne _ _ _ _ h]
  · simp [hreq]

theorem patternCheck_preserves (reMatch : String → String → Bool)
    (form_data errors : List (String × String)) (f : FormField) (k : String)
    (h : k ≠ f.name) :
    dictGet (patternCheck reMatch form_data errors f) k = dictGet errors k := by
  unfold patternCheck
  rcases hvp : f.validation_pattern with - | pat
  · rfl
  · by_cases hpat : pat = ""
    · simp [hpat]
    · rcases hfd : dictGet form_data f.name with - | v
      · simp [hpat, hfd]
      · simp only [if_neg hpat, hfd]
        split
        · exact dictGet_dictSet_ne _ _ _ _ h
        · rfl

theorem validateStep_preserves (reMatch : String → String → Bool)
    (form_data files errors : List (String × String)) (f : FormField)
    (k : String) (h : k ≠ f.name) :
    dictGet (validateStep reMatch form_data files errors f) k = dictGet errors k := by
  unfold validateStep
  rw [patternCheck_preserves _ _ _ _ _ h, requiredCheck_preserves _ _ _ _ _ h]

theorem requiredCheck_count_preserves
    (form_data files errors : List (String × String)) (f : FormField)
    (k : String) (h : k ≠ f.name) :
    countKey (requiredCheck form_data files errors f) k = countKey errors k := by
  unfold requiredCheck
  by_cases hreq : f.required = true
  · by_cases hft : f.field_type = FieldType.file
    · by_cases hfile : (dictGet files f.name).isSome <;>
        simp [hreq, hft, hfile, countKey_dictSet_ne _ _ _ _ h]
    · rcases hfd : dictGet form_data f.name with - | v
      · simp [hreq, hft, hfd, countKey_dictSet_ne _ _ _ _ h]
      · by_cases hv : v = "" ∨ pyStrip v = "" <;>
          simp [hreq, hft, hfd, hv, countKey_dictSet_ne _ _ _ _ h]
  · simp [hreq]

theorem patternCheck_count_preserves (reMatch : String → String → Bool)
    (form_data errors : List (String × String)) (f : FormField) (k : String)
    (h : k ≠ f.name) :
    countKey (patternCheck reMatch form_data errors f) k = countKey errors k := by
  unfold patternCheck
  rcases hvp : f.validation_pattern with - | pat
  · rfl
  · by_cases hpat : pat = ""
    · simp [hpat]
    · rcases hfd : dictGet form_data f.name with - | v
      · simp [hpat, hfd]
      · simp only [if_neg hpat, hfd]
        split
        · exact countKey_dictSet_ne _ _ _ _ h
        · rfl

theorem validateStep_count_preserves (reMatch : String → String → Bool)
    (form_data files errors : List (String × String)) (f : FormField)
    (k : String) (h : k ≠ f.name) :
    countKey (validateStep reMatch form_data files errors f) k = countKey errors k := by
  unfold validateStep
  rw [patternCheck_count_preserves _ _ _ _ _ h,
    requiredCheck_count_preserves _ _ _ _ _ h]

theorem validate_foldl_preserves (reMatch : String → String → Bool)
    (form_data files : List (String × String)) (fs : List FormField)
    (errors : List (String × String)) (k : String)
    (h : ∀ f ∈ fs, k ≠ f.name) :
    dictGet (fs.foldl (validateStep reMatch form_data files) errors) k =
      dictGet errors k := by
  induction fs generalizing errors with
  | nil => rfl
  | cons f fs ih =>
    rw [List.foldl_cons, ih _ (fun g hg => h g (List.mem_cons_of_mem f hg)),
      validateStep_preserves _ _ _ _ _ _ (h f (List.mem_cons_self f fs))]

theorem validate_foldl_count_preserves (reMatch : String → String → Bool)
    (form_data files : List (String × String)) (fs : List FormField)
    (errors : List (String × String)) (k : String)
    (h : ∀ f ∈ fs, k ≠ f.name) :
    countKey (fs.foldl (validateStep reMatch form_data files) errors) k =
      countKey errors k := by
  induction fs generalizing errors with
  | nil => rfl
  | cons f fs ih =>
    rw [List.foldl_cons, ih _ (fun g hg => h g (List.mem_cons_of_mem f hg)),
      validateStep_count_preserves _ _ _ _ _ _ (h f (List.mem_cons_self f fs))]

/-- C3 (amended): for a required non-file field whose name is unique on its
page, a submission in which the field's value is absent or empty — or
whitespace-only, provided the field carries no validation pattern — produces
exactly one error for that field, keyed by the field's name, with text
`"<label> is required"` (with a validation pattern, a whitespace-only value is
truthy and pattern validation may overwrite the message with a format error);
a present, non-blank value on a field with no validation pattern produces no
error for that field. -/
theorem required_field_validation (reMatch : String → String → Bool)
    (page : FormPage) (form_data files : List (String × String)) (f : FormField)
    (hmem : f ∈ page.fields) (hnodup : (page.fields.map FormField.name).Nodup)
    (hreq : f.required = true) (hft : f.field_type ≠ FieldType.file) :
    ((dictGet form_data f.name = none ∨ dictGet form_data f.name = some "" ∨
        (∃ v, dictGet form_data f.name = some v ∧ pyStrip v = "" ∧
          f.validation_pattern = none)) →
      dictGet (validate_page reMatch page form_data files) f.name =
        some (f.label ++ " is required") ∧
      countKey (validate_page reMatch page form_data files) f.name = 1) ∧
    ((∃ v, dictGet form_data f.name = some v ∧ pyStrip v ≠ "" ∧
        f.validation_pattern = none) →
      dictGet (validate_page reMatch page form_data files) f.name = none) := by
  obtain ⟨l1, l2, hsplit⟩ := List.append_of_mem hmem
  have hnd := hnodup
  rw [hsplit, List.map_append, List.map_cons, List.nodup_append] at hnd
  obtain ⟨-, hnd2, hdisj⟩ := hnd
  have h1 : ∀ g ∈ l1, f.name ≠ g.name := by
    intro g hg he
    have hmem2 : g.name ∈ f.name :: l2.map FormField.name := by
      rw [← he]
      exact List.mem_cons_self _ _
    exact hdisj (List.mem_map_of_mem FormField.name hg) hmem2
  have h2 : ∀ g ∈ l2, f.name ≠ g.name := by
    intro g hg he
    apply (List.nodup_cons.mp hnd2).1
    rw [he]
    exact List.mem_map_of_mem FormField.name hg
  have hvp : validate_page reMatch page form_data files =
      List.foldl (validateStep reMatch form_data files)
        (validateStep reMatch form_data files
          (List.foldl (validateStep reMatch form_data files) [] l1) f) l2 := by
    rw [validate_page, hsplit, List.foldl_append, List.foldl_cons]
  have hge1 : dictGet (List.foldl (validateStep reMatch form_data files) [] l1)
      f.name = none := by
    rw [validate_foldl_preserves _ _ _ _ _ _ h1]
    rfl
  have hce1 : countKey (List.foldl (validateStep reMatch form_data files) [] l1)
      f.name = 0 := by
    rw [validate_foldl_count_preserves _ _ _ _ _ _ h1]
    rfl
  constructor
  · intro hcase
    have he2 : validateStep reMatch form_data files
        (List.foldl (validateStep reMatch form_data files) [] l1) f =
        dictSet (List.foldl (validateStep reMatch form_data files) [] l1)
          f.name (f.label ++ " is required") := by
      rcases hcase with hfd | hfd | ⟨v, hfd, hvt, hvpn⟩
      · unfold validateStep requiredCheck patternCheck
        rcases f.validation_pattern with - | pat <;> simp [hreq, hft, hfd]
      · unfold validateStep requiredCheck patternCheck
        rcases f.validation_pattern with - | pat <;> simp [hreq, hft, hfd]
      · unfold validateStep requiredCheck patternCheck
        rw [hvpn]
        simp [hreq, hft, hfd, hvt]
    rw [hvp, he2] at *
    constructor
    · rw [validate_foldl_preserves _ _ _ _ _ _ h2, dictGet_dictSet_self]
    · rw [validate_foldl_count_preserves _ _ _ _ _ _ h2, countKey_dictSet_self,
        hce1]
      decide
  · rintro ⟨v, hfd, hvt, hvpn⟩
    have hvne : ¬(v = "" ∨ pyStrip v = "") := by
      rintro (rfl | hh)
      · exact hvt (by decide)
      · exact hvt hh
    have he2 : validateStep reMatch form_data files
        (List.foldl (validateStep reMatch form_data files) [] l1) f =
        List.foldl (validateStep reMatch form_data files) [] l1 := by
      unfold validateStep requiredCheck patternCheck
      rw [hvpn]
      simp [hreq, hft, hfd, hvne]
    rw [hvp, he2, validate_foldl_preserves _ _ _ _ _ _ h2, hge1]

/-- Concrete matcher used in validation witnesses: the truthiness of
`re.match("[a-z]+", v)`, i.e. the first character is a lowercase ASCII
letter. -/
def reMatchLowerHead : String → String → Bool := fun _ v =>
  match v.data with
  | [] => false
  | c :: _ => c.isLower

/-- Required text field used to witness required-field validation. -/
def c3field : FormField :=
  { id := "f1", name := "first_name", label := "First Name",
    field_type := .text, required := true }

/-- One-page form used to witness required-field validation. -/
def c3page : FormPage :=
  { page_id := "p1", title := "P", fields := [c3field] }

/-- Witness for the amended C3 theorem: an absent value yields exactly the
missing-field error, a present non-blank value yields none. -/
theorem required_field_validation_witness :
    dictGet (validate_page reMatchLowerHead c3page [] []) "first_name" =
      some "First Name is required" ∧
    countKey (validate_page reMatchLowerHead c3page [] []) "first_name" = 1 ∧
    dictGet (validate_page reMatchLowerHead c3page [("first_name", "Ann")] [])
      "first_name" = none := by
  have h1 := (required_field_validation reMatchLowerHead c3page [] [] c3field
    (by decide) (by decide) rfl (by decide)).1 (Or.inl rfl)
  have h2 := (required_field_validation reMatchLowerHead c3page
    [("first_name", "Ann")] [] c3field (by decide) (by decide) rfl
    (by decide)).2 ⟨"Ann", rfl, by decide, rfl⟩
  exact ⟨h1.1, h1.2, h2⟩

/-- C3 counterexample: a required text field that also carries a validation
pattern, submitted with a whitespace-only value that fails the pattern
(`re.match("[a-z]+", "   ")` is `None`), ends with the format error text, not
`"<label> is required"` — the whitespace-only value is truthy, so pattern
validation runs and overwrites the missing-field message. -/
theorem required_whitespace_pattern_overwrites :
    validate_page reMatchLowerHead
      { page_id := "p1", title := "P",
        fields := [{ id := "f1", name := "first_name", label := "First Name",
                     field_type := .text, required := true,
                     validation_pattern := some "[a-z]+" }] }
      [("first_name", "   ")] [] =
      [("first_name", "First Name format is invalid")] ∧
    ("First Name format is invalid" : String) ≠ "First Name is required" := by
  constructor
  · decide
  · decide

/-- C7 (amended): for a non-file field carrying a non-empty validation
pattern, with a unique name on its page: a truthy (non-empty) value failing
the pattern yields the field's custom message or `"<label> format is
invalid"`; a truthy value matching the pattern yields no error unless the
field is required and the value is whitespace-only (then the required-field
error remains); an absent or empty value on a non-required field yields no
error. -/
theorem pattern_validation (reMatch : String → String → Bool)
    (page : FormPage) (form_data files : List (String × String)) (f : FormField)
    (hmem : f ∈ page.fields) (hnodup : (page.fields.map FormField.name).Nodup)
    (hft : f.field_type ≠ FieldType.file) (pat : String)
    (hpat : f.validation_pattern = some pat) (hpatne : pat ≠ "") :
    (∀ v, dictGet form_data f.name = some v → v ≠ "" → reMatch pat v = false →
      dictGet (validate_page reMatch page form_data files) f.name =
        some (pyOrStr f.validation_message (f.label ++ " format is invalid"))) ∧
    (∀ v, dictGet form_data f.name = some v → v ≠ "" → reMatch pat v = true →
      (f.required = false ∨ pyStrip v ≠ "") →
      dictGet (validate_page reMatch page form_data files) f.name = none) ∧
    ((dictGet form_data f.name = none ∨ dictGet form_data f.name = some "") →
      f.required = false →
      dictGet (validate_page reMatch page form_data files) f.name = none) := by
  obtain ⟨l1, l2, hsplit⟩ := List.append_of_mem hmem
  have hnd := hnodup
  rw [hsplit, List.map_append, List.map_cons, List.nodup_append] at hnd
  obtain ⟨-, hnd2, hdisj⟩ := hnd
  have h1 : ∀ g ∈ l1, f.name ≠ g.name := by
    intro g hg he
    have hmem2 : g.name ∈ f.name :: l2.map FormField.name := by
      rw [← he]
      exact List.mem_cons_self _ _
    exact hdisj (List.mem_map_of_mem FormField.name hg) hmem2
  have h2 : ∀ g ∈ l2, f.name ≠ g.name := by
    intro g hg he
    apply (List.nodup_cons.mp hnd2).1
    rw [he]
    exact List.mem_map_of_mem FormField.name hg
  have hvp : validate_page reMatch page form_data files =
      List.foldl (validateStep reMatch form_data files)
        (validateStep reMatch form_data files
          (List.foldl (validateStep reMatch form_data files) [] l1) f) l2 := by
    rw [validate_page, hsplit, List.foldl_append, List.foldl_cons]
  have hge1 : dictGet (List.foldl (validateStep reMatch form_data files) [] l1)
      f.name = none := by
    rw [validate_foldl_preserves _ _ _ _ _ _ h1]
    rfl
  refine ⟨?_, ?_, ?_⟩
  · intro v hfd hv hm
    have he2 : dictGet (validateStep reMatch form_data files
        (List.foldl (validateStep reMatch form_data files) [] l1) f) f.name =
        some (pyOrStr f.validation_message (f.label ++ " format is invalid")) := by
      unfold validateStep patternCheck
      rw [hpat]
      simp [hpatne, hfd, hv, hm, dictGet_dictSet_self]
    rw [hvp, validate_foldl_preserves _ _ _ _ _ _ h2, he2]
  · intro v hfd hv hm hok
    have he2 : validateStep reMatch form_data files
        (List.foldl (validateStep reMatch form_data files) [] l1) f =
        List.foldl (validateStep reMatch form_data files) [] l1 := by
      unfold validateStep patternCheck requiredCheck
      rw [hpat]
      rcases hok with hok | hok
      · simp [hpatne, hfd, hv, hm, hok]
      · by_cases hreq : f.required = true <;>
          simp [hpatne, hfd, hv, hm, hreq, hft, hok]
    rw [hvp, validate_foldl_preserves _ _ _ _ _ _ h2, he2, hge1]
  · intro hfd hreq
    have he2 : validateStep reMatch form_data files
        (List.foldl (validateStep reMatch form_data files) [] l1) f =
        List.foldl (validateStep reMatch form_data files) [] l1 := by
      unfold validateStep patternCheck requiredCheck
      rw [hpat]
      rcases hfd with hfd | hfd <;> simp [hpatne, hfd, hreq]
    rw [hvp, validate_foldl_preserves _ _ _ _ _ _ h2, he2, hge1]

/-- Optional email field with a pattern, used to witness pattern validation. -/
def c7field : FormField :=
  { id := "f1", name := "email", label := "Email", field_type := .email,
    required := false, validation_pattern := some "[a-z]+" }

/-- One-page form holding `c7field`, used to witness pattern validation. -/
def c7page : FormPage :=
  { page_id := "p1", title := "P", fields := [c7field] }

/-- Witness for the amended C7 theorem: a non-matching value yields the format
error, a matching one or an absent one yields none. -/
theorem pattern_validation_witness :
    dictGet (validate_page reMatchLowerHead c7page [("email", "XYZ")] [])
      "email" = some "Email format is invalid" ∧
    dictGet (validate_page reMatchLowerHead c7page [("email", "abc")] [])
      "email" = none ∧
    dictGet (validate_page reMatchLowerHead c7page [] []) "email" = none := by
  have h1 := (pattern_validation reMatchLowerHead c7page [("email", "XYZ")] []
    c7field (by decide) (by decide) (by decide) "[a-z]+" rfl (by decide)).1
    "XYZ" rfl (by decide) (by decide)
  have h2 := (pattern_validation reMatchLowerHead c7page [("email", "abc")] []
    c7field (by decide) (by decide) (by decide) "[a-z]+" rfl (by decide)).2.1
    "abc" rfl (by decide) (by decide) (Or.inl rfl)
  have h3 := (pattern_validation reMatchLowerHead c7page [] []
    c7field (by decide) (by decide) (by decide) "[a-z]+" rfl (by decide)).2.2
    (Or.inl rfl) rfl
  exact ⟨h1, h2, h3⟩

/-- C7 counterexample: a required field with pattern `\s*` (which matches the
whitespace-only value, modelled by the constantly-true matcher), submitted
with `"   "`: the value is present and matches the pattern, yet the
required-field error is produced, contradicting the claim that a present,
matching value yields no error for the field. -/
theorem pattern_match_required_blank_error :
    (fun (_ _ : String) => true) "\\s*" "   " = true ∧
    dictGet
      (validate_page (fun _ _ => true)
        { page_id := "p1", title := "P",
          fields := [{ id := "f1", name := "first_name", label := "First Name",
                       field_type := .text, required := true,
                       validation_pattern := some "\\s*" }] }
        [("first_name", "   ")] [])
      "first_name" = some "First Name is required" := by
  constructor
  · rfl
  · decide

/-- C5 (amended): `show_page` checks only that the template and page exist
(404 NotFound otherwise) and never consults session state — any existing page
renders for any session identifier, known or unknown; `submit_page` performs
the same two 404 checks and then always fails with the AttributeError (500)
raised at `await request.files()`, regardless of session — a failure, but
neither a StateError nor a NotFoundError, and unrelated to any session
check. -/
theorem navigation_no_session_checks (st : ServerState)
    (template_id page_id : String) (session : Option String)
    (form_data : List (String × String)) :
    (dictGet st.templates template_id = none →
      show_page st template_id page_id session =
        .httpError 404 "Template not found" ∧
      submit_page st template_id page_id session form_data =
        (st, .httpError 404 "Template not found")) ∧
    (∀ template, dictGet st.templates template_id = some template →
      template.pages.find? (fun p => p.page_id == page_id) = none →
      show_page st template_id page_id session =
        .httpError 404 "Page not found" ∧
      submit_page st template_id page_id session form_data =
        (st, .httpError 404 "Page not found")) ∧
    (∀ template page, dictGet st.templates template_id = some template →
      template.pages.find? (fun p => p.page_id == page_id) = some page →
      show_page st template_id page_id session =
        .html template_id page.page_id session [] ∧
      submit_page st template_id page_id session form_data =
        (st, .httpError 500 "AttributeError")) := by
  refine ⟨?_, ?_, ?_⟩
  · intro h
    exact ⟨by simp [show_page, h], by simp [submit_page, h]⟩
  · intro template ht hpn
    exact ⟨by simp [show_page, ht, hpn], by simp [submit_page, ht, hpn]⟩
  · intro template page ht hp
    exact ⟨by simp [show_page, ht, hp], by simp [submit_page, ht, hp]⟩

/-- Two-page template used for the session-check counterexample and witness. -/
def c5p1 : FormPage := { page_id := "p1", title := "P1" }

/-- Second page of the session-check template. -/
def c5p2 : FormPage := { page_id := "p2", title := "P2" }

/-- Template with pages `p1`, `p2` and no fields. -/
def c5template : FormTemplate :=
  { template_id := "t1", name := "T", description := "D"
    pages := [c5p1, c5p2] }

/-- Server state with `c5template` registered and no sessions. -/
def c5state : ServerState :=
  { templates := [("t1", c5template)], session_data := [] }

/-- C5 counterexample: requesting page `p2` for the unknown session
identifier `ghost` (no session exists at all) succeeds silently with a
rendered page rather than failing with a StateError/NotFoundError; with no
session cursor anywhere in the code, the same holds for any page regardless
of any session's progress. -/
theorem show_page_unknown_session_succeeds :
    dictGet c5state.session_data "ghost" = none ∧
    show_page c5state "t1" "p2" (some "ghost") =
      .html "t1" "p2" (some "ghost") [] := by
  exact ⟨rfl, by decide⟩

/-- Witness for the amended C5 theorem at a concrete state. -/
theorem navigation_no_session_checks_witness :
    show_page c5state "missing" "p1" none =
      .httpError 404 "Template not found" ∧
    show_page c5state "t1" "p2" (some "ghost") =
      .html "t1" "p2" (some "ghost") [] ∧
    submit_page c5state "t1" "p1" (some "ghost") [] =
      (c5state, .httpError 500 "AttributeError") := by
  have h1 := navigation_no_session_checks c5state "missing" "p1" none []
  have h2 := navigation_no_session_checks c5state "t1" "p2" (some "ghost") []
  have h3 := navigation_no_session_checks c5state "t1" "p1" (some "ghost") []
  exact ⟨(h1.1 rfl).1, (h2.2.2 c5template c5p2 rfl rfl).1,
    (h3.2.2 c5template c5p1 rfl rfl).2⟩

/-- C6 (amended): submitting the final page of a template — even with field
values for which `_validate_page` would produce zero errors — never reaches
the success redirect and never creates a COMPLETED state: the handler fails
with the AttributeError (500) raised at `await request.files()` before the
redirect code, the server state is unchanged, and every page of the template
still renders for that session afterwards. -/
theorem final_page_submit_never_completes (st : ServerState)
    (template_id page_id : String) (session : Option String)
    (form_data : List (String × String)) (template : FormTemplate)
    (page : FormPage) (ht : dictGet st.templates template_id = some template)
    (hp : template.pages.find? (fun p => p.page_id == page_id) = some page)
    (hlast : template.pages.findIdx (fun p => p.page_id == page_id) =
      template.pages.length - 1) :
    submit_page st template_id page_id session form_data =
      (st, .httpError 500 "AttributeError") ∧
    (∀ url, (submit_page st template_id page_id session form_data).2 ≠
      Response.redirect url) ∧
    ∀ pid2 page2,
      template.pages.find? (fun p => p.page_id == pid2) = some page2 →
      show_page (submit_page st template_id page_id session form_data).1
          template_id pid2 session =
        .html template_id page2.page_id session [] := by
  have he : submit_page st template_id page_id session form_data =
      (st, .httpError 500 "AttributeError") := by
    simp [submit_page, ht, hp]
  refine ⟨he, ?_, ?_⟩
  · intro url
    rw [he]
    simp
  · intro pid2 page2 hp2
    rw [he]
    simp [show_page, ht, hp2]

/-- Required text field of the completion counterexample. -/
def c6field : FormField :=
  { id := "f1", name := "first_name", label := "First Name"
    field_type := .text, required := true }

/-- Single (hence final) page of the completion counterexample. -/
def c6page : FormPage := { page_id := "p1", title := "P", fields := [c6field] }

/-- One-page template of the completion counterexample. -/
def c6template : FormTemplate :=
  { template_id := "t1", name := "T", description := "D", pages := [c6page] }

/-- Server state of the completion counterexample, session `s1` started. -/
def c6state : ServerState :=
  { templates := [("t1", c6template)], session_data := [("s1", [])] }

/-- C6 counterexample: submitting the final (only) page with a value that
passes validation does not redirect to the success destination — the handler
fails with a 500 AttributeError at `await request.files()` — so the claimed
COMPLETED transition never happens, and the page still renders for the
session afterwards. -/
theorem final_submit_no_redirect_page_still_renders :
    validate_page (fun _ _ => true) c6page [("first_name", "Ann")] [] = [] ∧
    submit_page c6state "t1" "p1" (some "s1") [("first_name", "Ann")] =
      (c6state, .httpError 500 "AttributeError") ∧
    (Response.httpError 500 "AttributeError" ≠
      Response.redirect "/success?session=s1") ∧
    show_page (submit_page c6state "t1" "p1" (some "s1")
        [("first_name", "Ann")]).1 "t1" "p1" (some "s1") =
      .html "t1" "p1" (some "s1") [] := by
  refine ⟨?_, ?_, by decide, ?_⟩ <;> decide

/-- Witness for the amended C6 theorem at a concrete state. -/
theorem final_page_submit_never_completes_witness :
    submit_page c6state "t1" "p1" (some "s1") [("first_name", "Bo")] =
      (c6state, .httpError 500 "AttributeError") ∧
    show_page (submit_page c6state "t1" "p1" (some "s1")
        [("first_name", "Bo")]).1 "t1" "p1" (some "s1") =
      .html "t1" "p1" (some "s1") [] := by
  have h := final_page_submit_never_completes c6state "t1" "p1" (some "s1")
    [("first_name", "Bo")] c6template c6page rfl rfl rfl
  exact ⟨h.1, h.2.2 "p1" c6page rfl⟩

/-- C4 (amended): a POST submission for a known template and page — in
particular one whose field values would fail validation — never returns the
error set: it fails with the AttributeError (500) raised at
`await request.files()` before the session write and the validation call,
leaving the entire server state, including the session's previously stored
field values for the page, unchanged. -/
theorem submit_attribute_error_state_unchanged (st : ServerState)
    (template_id page_id : String) (session : Option String)
    (form_data : List (String × String)) (template : FormTemplate)
    (page : FormPage) (ht : dictGet st.templates template_id = some template)
    (hp : template.pages.find? (fun p => p.page_id == page_id) = some page) :
    submit_page st template_id page_id session form_data =
      (st, .httpError 500 "AttributeError") := by
  simp [submit_page, ht, hp]

/-- Required text field of the overwrite counterexample. -/
def c4field : FormField :=
  { id := "f1", name := "first_name", label := "First Name"
    field_type := .text, required := true }

/-- Page of the overwrite counterexample. -/
def c4page : FormPage := { page_id := "p1", title := "P", fields := [c4field] }

/-- Template of the overwrite counterexample. -/
def c4template : FormTemplate :=
  { template_id := "t1", name := "T", description := "D", pages := [c4page] }

/-- Server state in which session `s1` already stores a value for `p1`. -/
def c4state : ServerState :=
  { templates := [("t1", c4template)]
    session_data := [("s1", [("p1", [("first_name", StoredValue.text "Ann")])])] }

/-- C4 counterexample: a submission that would fail validation (the required
field is absent, so `_validate_page` would yield exactly one error) does not
return that error set: the handler dies at `await request.files()` with a 500
AttributeError before the session write and validation, so no error
re-render is produced. -/
theorem failed_submit_returns_500_not_errors :
    validate_page (fun _ _ => true) c4page [] [] =
      [("first_name", "First Name is required")] ∧
    submit_page c4state "t1" "p1" (some "s1") [] =
      (c4state, .httpError 500 "AttributeError") ∧
    (Response.httpError 500 "AttributeError" ≠
      Response.html "t1" "p1" (some "s1")
        [("first_name", "First Name is required")]) := by
  refine ⟨?_, ?_, by decide⟩ <;> decide

/-- Witness for the amended C4 theorem at a concrete state. -/
theorem submit_attribute_error_state_unchanged_witness :
    submit_page c4state "t1" "p1" (some "s1") [("first_name", "   ")] =
      (c4state, .httpError 500 "AttributeError") :=
  submit_attribute_error_state_unchanged c4state "t1" "p1" (some "s1")
    [("first_name", "   ")] c4template c4page rfl rfl

/-! Embedding of `interaction_tracker.py`. `datetime.now()` is modelled by an
explicit `now : Nat` argument (milliseconds); `completion_percentage`, a
Python float arising from an exact small division, is modelled as a rational. -/

/-- `InteractionType` enum of `interaction_tracker.py`. -/
inductive InteractionType where
  | page_load
  | field_fill
  | field_fill_attempt
  | button_click
  | button_click_attempt
  | dropdown_select
  | checkbox_toggle
  | radio_select
  | file_upload
  | navigation
  | validation_error
  | page_timeout
  | element_not_found
deriving DecidableEq, Repr

/-- String value of an interaction type (the `str`-enum value). -/
def InteractionType.value : InteractionType → String
  | .page_load => "page_load"
  | .field_fill => "field_fill"
  | .field_fill_attempt => "field_fill_attempt"
  | .button_click => "button_click"
  | .button_click_attempt => "button_click_attempt"
  | .dropdown_select => "dropdown_select"
  | .checkbox_toggle => "checkbox_toggle"
  | .radio_select => "radio_select"
  | .file_upload => "file_upload"
  | .navigation => "navigation"
  | .validation_error => "validation_error"
  | .page_timeout => "page_timeout"
  | .element_not_found => "element_not_found"

/-- `Interaction` dataclass: a single interaction event. -/
structure Interaction where
  timestamp : Nat
  interaction_type : InteractionType
  element_id : Option String := none
  element_selector : Option String := none
  element_label : Option String := none
  action : Option String := none
  value : Option String := none
  success : Bool := true
  error_message : Option String := none
  page_url : Option String := none
  page_title : Option String := none
  duration_ms : Option Nat := none
  metadata : List (String × String) := []
deriving DecidableEq, Repr

/-- `FieldInteraction` dataclass: per-field fill tracking. -/
structure FieldInteraction where
  field_id : String
  field_name : String
  field_label : String
  field_type : String
  required : Bool
  attempts : List Interaction := []
  final_value : Option String := none
  was_filled : Bool := false
  was_filled_correctly : Bool := false
  validation_errors : List String := []
  time_to_fill_ms : Option Nat := none
deriving DecidableEq, Repr

/-- `PageMetrics` dataclass: metrics for a single page. -/
structure PageMetrics where
  page_id : String
  page_url : String
  page_title : String
  load_time_ms : Option Nat := none
  time_on_page_ms : Option Nat := none
  fields_total : Nat := 0
  fields_required : Nat := 0
  fields_filled : Nat := 0
  fields_filled_correctly : Nat := 0
  buttons_clicked : Nat := 0
  buttons_click_attempts : Nat := 0
  validation_errors : Nat := 0
  interactions : List Interaction := []
  field_interactions : List (String × FieldInteraction) := []
deriving DecidableEq, Repr

/-- `TestSessionMetrics` dataclass: session-level metrics. -/
structure TestSessionMetrics where
  session_id : String
  template_id : String
  start_time : Nat
  end_time : Option Nat := none
  pages_visited : List String := []
  pages_completed : List String := []
  total_pages : Nat := 0
  pages_metrics : List (String × PageMetrics) := []
  total_interactions : Nat := 0
  successful_interactions : Nat := 0
  failed_interactions : Nat := 0
  total_fields : Nat := 0
  fields_filled : Nat := 0
  fields_filled_correctly : Nat := 0
  fields_missed : List String := []
  fields_incorrect : List String := []
  buttons_clicked : Nat := 0
  buttons_failed : Nat := 0
  navigation_errors : Nat := 0
  validation_errors : Nat := 0
  total_duration_ms : Option Nat := none
  success : Bool := false
  completion_percentage : Rat := 0
  metadata : List (String × String) := []
deriving DecidableEq, Repr

/-- Mutable state of an `InteractionTracker`. -/
structure InteractionTracker where
  session_id : String
  template_id : String
  start_time : Nat
  interactions : List Interaction := []
  current_page_id : Option String := none
  current_page_url : Option String := none
  metrics : TestSessionMetrics
deriving DecidableEq, Repr

/-- `InteractionTracker.__init__`. -/
def InteractionTracker.init (session_id template_id : String) (now : Nat) :
    InteractionTracker :=
  { session_id := session_id, template_id := template_id, start_time := now
    metrics := { session_id := session_id, template_id := template_id
                 start_time := now } }

/-- `InteractionTracker.track_interaction`: appends the event, bumps
total/successful/failed counters, and — when a current page is set — appends
the event to that page's metrics and bumps its per-type counter. -/
def InteractionTracker.track_interaction (t : InteractionTracker) (now : Nat)
    (interaction_type : InteractionType)
    (element_id element_selector element_label action value : Option String)
    (success : Bool) (error_message page_url page_title : Option String)
    (duration_ms : Option Nat) (metadata : List (String × String)) :
    InteractionTracker :=
  let interaction : Interaction :=
    { timestamp := now
      interaction_type := interaction_type
      element_id := element_id
      element_selector := element_selector
      element_label := element_label
      action := action
      value := value
      success := success
      error_message := error_message
      page_url := if pyTruthy page_url then page_url else t.current_page_url
      page_title := page_title
      duration_ms := duration_ms
      metadata := metadata }
  let m1 := { t.metrics with
    total_interactions := t.metrics.total_interactions + 1 }
  let m2 :=
    if success then
      { m1 with successful_interactions := m1.successful_interactions + 1 }
    else
      { m1 with failed_interactions := m1.failed_interactions + 1 }
  let m3 :=
    match t.current_page_id with
    | none => m2
    | some pid =>
      let pm0 :=
        match dictGet m2.pages_metrics pid with
        | some pm => pm
        | none =>
          { page_id := pid, page_url := t.current_page_url.getD ""
            page_title := "" }
      let pm1 := { pm0 with interactions := pm0.interactions ++ [interaction] }
      let pm2 :=
        if interaction_type = InteractionType.field_fill ∧ success then
          { pm1 with fields_filled := pm1.fields_filled + 1 }
        else if interaction_type = InteractionType.button_click ∧ success then
          { pm1 with buttons_clicked := pm1.buttons_clicked + 1 }
        else if interaction_type = InteractionType.button_click_attempt then
          { pm1 with buttons_click_attempts := pm1.buttons_click_attempts + 1 }
        else if interaction_type = InteractionType.validation_error then
          { pm1 with validation_errors := pm1.validation_errors + 1 }
        else pm1
      { m2 with pages_metrics := dictSet m2.pages_metrics pid pm2 }
  { t with interactions := t.interactions ++ [interaction], metrics := m3 }

/-- `InteractionTracker.set_current_page`: records the current page, creates
its `PageMetrics` entry if missing, records the visit, and tracks a
`PAGE_LOAD` interaction. -/
def InteractionTracker.set_current_page (t : InteractionTracker) (now : Nat)
    (page_id page_url page_title : String) : InteractionTracker :=
  let t1 := { t with current_page_id := some page_id
                     current_page_url := some page_url }
  let t2 :=
    if (dictGet t1.metrics.pages_metrics page_id).isSome then t1
    else
      let pmNew : PageMetrics :=
        { page_id := page_id, page_url := page_url, page_title := page_title }
      let pms1 := dictSet t1.metrics.pages_metrics page_id pmNew
      { t1 with metrics := { t1.metrics with pages_metrics := pms1 } }
  let t3 :=
    if t2.metrics.pages_visited.contains page_id then t2
    else
      { t2 with metrics := { t2.metrics with pages_visited :=
          t2.metrics.pages_visited ++ [page_id] } }
  t3.track_interaction now InteractionType.page_load none none none none none
    true none (some page_url) (some page_title) none []

/-- `InteractionTracker.track_field_fill`: tracks a `FIELD_FILL` (or
`FIELD_FILL_ATTEMPT` on failure) interaction, then updates or creates the
field's interaction record on the current page's metrics. -/
def InteractionTracker.track_field_fill (t : InteractionTracker) (now : Nat)
    (field_id field_name field_label field_type : String)
    (value : Option String) (success : Bool) (error_message : Option String)
    (duration_ms : Option Nat) : InteractionTracker :=
  let t1 := t.track_interaction now
    (if success then InteractionType.field_fill
     else InteractionType.field_fill_attempt)
    (some field_id) (some ("#" ++ field_id)) (some field_label) (some "fill")
    value success error_message none none duration_ms
    [("field_name", field_name), ("field_type", field_type)]
  match t1.current_page_id with
  | none => t1
  | some pid =>
    match dictGet t1.metrics.pages_metrics pid with
    | none => t1
    | some pm =>
      let fi0 :=
        match dictGet pm.field_interactions field_id with
        | some fi => fi
        | none =>
          { field_id := field_id, field_name := field_name
            field_label := field_label, field_type := field_type
            required := false }
      let fi1 :=
        match t1.interactions.getLast? with
        | some last => { fi0 with attempts := fi0.attempts ++ [last] }
        | none => fi0
      let fi2 :=
        if success then { fi1 with was_filled := true, final_value := value }
        else
          match error_message with
          | some msg =>
            if msg = "" then fi1
            else { fi1 with validation_errors := fi1.validation_errors ++ [msg] }
          | none => fi1
      let pmUpd := { pm with field_interactions :=
                       dictSet pm.field_interactions field_id fi2 }
      let pms1 := dictSet t1.metrics.pages_metrics pid pmUpd
      { t1 with metrics := { t1.metrics with pages_metrics := pms1 } }

/-- `InteractionTracker.track_button_click`: tracks a `BUTTON_CLICK` (or
`BUTTON_CLICK_ATTEMPT` on failure) interaction, then bumps the session's
`buttons_clicked` or `buttons_failed` counter. -/
def InteractionTracker.track_button_click (t : InteractionTracker) (now : Nat)
    (button_id : Option String) (button_selector button_text : String)
    (success : Bool) (error_message : Option String)
    (duration_ms : Option Nat) : InteractionTracker :=
  let t1 := t.track_interaction now
    (if success then InteractionType.button_click
     else InteractionType.button_click_attempt)
    button_id (some button_selector) (some button_text) (some "click")
    none success error_message none none duration_ms []
  if success then
    { t1 with metrics := { t1.metrics with
        buttons_clicked := t1.metrics.buttons_clicked + 1 } }
  else
    { t1 with metrics := { t1.metrics with
        buttons_failed := t1.metrics.buttons_failed + 1 } }

/-- `InteractionTracker.finalize_session`: stamps the end time and duration,
stores the success flag, and recomputes `completion_percentage` guarded by a
zero denominator. The required-field total is folded over the literal empty
list `[]` in the source (its comment reads "Will be populated from
template"), so it is always 0 and the percentage is never recomputed. -/
def InteractionTracker.finalize_session (t : InteractionTracker) (now : Nat)
    (success : Bool) : InteractionTracker :=
  let m1 := { t.metrics with
    end_time := some now
    total_duration_ms := some (now - t.metrics.start_time)
    success := success }
  let total_required_fields : Nat :=
    (([] : List FormPage).map
      (fun page => (page.fields.filter (fun f => f.required)).length)).sum
  if total_required_fields > 0 then
    { t with metrics := { m1 with completion_percentage :=
        ((m1.fields_filled_correctly : Rat) / (total_required_fields : Rat))
          * 100 } }
  else
    { t with metrics := m1 }

/-- One interaction entry of the export document. -/
structure ExportInteraction where
  timestamp : Nat
  interaction_type : String
  element_id : Option String
  element_selector : Option String
  element_label : Option String
  action : Option String
  value : Option String
  success : Bool
  error_message : Option String
  page_url : Option String
  duration_ms : Option Nat
  metadata : List (String × String)
deriving DecidableEq, Repr

/-- The `"metrics"` object of the export document. -/
structure ExportMetrics where
  total_interactions : Nat
  successful_interactions : Nat
  failed_interactions : Nat
  fields_filled : Nat
  fields_filled_correctly : Nat
  fields_missed : List String
  fields_incorrect : List String
  buttons_clicked : Nat
  buttons_failed : Nat
  validation_errors : Nat
deriving DecidableEq, Repr

/-- One per-page summary of the export document. -/
structure ExportPageSummary where
  page_id : String
  page_url : String
  fields_total : Nat
  fields_filled : Nat
  fields_filled_correctly : Nat
  buttons_clicked : Nat
  validation_errors : Nat
  time_on_page_ms : Option Nat
deriving DecidableEq, Repr

/-- The flattened export document (`data` in `export_to_json`, before it is
dumped to a file — the file write itself is outside the model). -/
structure ExportDoc where
  session_id : String
  template_id : String
  start_time : Nat
  end_time : Option Nat
  total_duration_ms : Option Nat
  success : Bool
  completion_percentage : Rat
  interactions : List ExportInteraction
  metrics : ExportMetrics
  pages : List (String × ExportPageSummary)
deriving DecidableEq, Repr

/-- `InteractionTracker.export_to_json`: the flattened projection written out
(session metadata, the ordered interaction list, the metrics block with the
session-level counters, and per-page summaries). -/
def InteractionTracker.export_to_json (t : InteractionTracker) : ExportDoc :=
  { session_id := t.session_id
    template_id := t.template_id
    start_time := t.metrics.start_time
    end_time := t.metrics.end_time
    total_duration_ms := t.metrics.total_duration_ms
    success := t.metrics.success
    completion_percentage := t.metrics.completion_percentage
    interactions := t.interactions.map (fun i =>
      { timestamp := i.timestamp
        interaction_type := i.interaction_type.value
        element_id := i.element_id
        element_selector := i.element_selector
        element_label := i.element_label
        action := i.action
        value := i.value
        success := i.success
        error_message := i.error_message
        page_url := i.page_url
        duration_ms := i.duration_ms
        metadata := i.metadata })
    metrics :=
      { total_interactions := t.metrics.total_interactions
        successful_interactions := t.metrics.successful_interactions
        failed_interactions := t.metrics.failed_interactions
        fields_filled := t.metrics.fields_filled
        fields_filled_correctly := t.metrics.fields_filled_correctly
        fields_missed := t.metrics.fields_missed
        fields_incorrect := t.metrics.fields_incorrect
        buttons_clicked := t.metrics.buttons_clicked
        buttons_failed := t.metrics.buttons_failed
        validation_errors := t.metrics.validation_errors }
    pages := t.metrics.pages_metrics.map (fun p =>
      (p.1,
       { page_id := p.2.page_id
         page_url := p.2.page_url
         fields_total := p.2.fields_total
         fields_filled := p.2.fields_filled
         fields_filled_correctly := p.2.fields_filled_correctly
         buttons_clicked := p.2.buttons_clicked
         validation_errors := p.2.validation_errors
         time_on_page_ms := p.2.time_on_page_ms })) }

/-- One recorded call to the tracker's public tracking interface. -/
inductive TrackerOp where
  | track (now : Nat) (interaction_type : InteractionType)
      (element_id element_selector element_label action value : Option String)
      (success : Bool) (error_message page_url page_title : Option String)
      (duration_ms : Option Nat) (metadata : List (String × String))
  | fieldFill (now : Nat) (field_id field_name field_label field_type : String)
      (value : Option String) (success : Bool) (error_message : Option String)
      (duration_ms : Option Nat)
  | buttonClick (now : Nat) (button_id : Option String)
      (button_selector button_text : String) (success : Bool)
      (error_message : Option String) (duration_ms : Option Nat)
  | setCurrentPage (now : Nat) (page_id page_url page_title : String)
  | finalize (now : Nat) (success : Bool)

/-- Dispatch of one tracker call. -/
def applyOp (t : InteractionTracker) : TrackerOp → InteractionTracker
  | .track now ty eid esel elb act v s em pu pt dm md =>
    t.track_interaction now ty eid esel elb act v s em pu pt dm md
  | .fieldFill now fid fn fl ft v s em dm =>
    t.track_field_fill now fid fn fl ft v s em dm
  | .buttonClick now bid bs bt s em dm =>
    t.track_button_click now bid bs bt s em dm
  | .setCurrentPage now pid pu pt => t.set_current_page now pid pu pt
  | .finalize now s => t.finalize_session now s

/-- A whole sequence of tracker calls, applied in order. -/
def runOps (t : InteractionTracker) (ops : List TrackerOp) : InteractionTracker :=
  ops.foldl applyOp t

theorem track_interaction_total (t : InteractionTracker) (now : Nat)
    (ty : InteractionType) (eid esel elb act v : Option String) (s : Bool)
    (em pu ptl : Option String) (dm : Option Nat)
    (md : List (String × String)) :
    (t.track_interaction now ty eid esel elb act v s em pu ptl dm
        md).metrics.total_interactions = t.metrics.total_interactions + 1 := by
  unfold InteractionTracker.track_interaction
  rcases t.current_page_id with - | pid <;> by_cases hs : s = true <;> simp [hs]

theorem track_interaction_succ (t : InteractionTracker) (now : Nat)
    (ty : InteractionType) (eid esel elb act v : Option String) (s : Bool)
    (em pu ptl : Option String) (dm : Option Nat)
    (md : List (String × String)) :
    (t.track_interaction now ty eid esel elb act v s em pu ptl dm
        md).metrics.successful_interactions =
      (if s then t.metrics.successful_interactions + 1
       else t.metrics.successful_interactions) := by
  unfold InteractionTracker.track_interaction
  rcases t.current_page_id with - | pid <;> by_cases hs : s = true <;> simp [hs]

theorem track_interaction_failed (t : InteractionTracker) (now : Nat)
    (ty : InteractionType) (eid esel elb act v : Option String) (s : Bool)
    (em pu ptl : Option String) (dm : Option Nat)
    (md : List (String × String)) :
    (t.track_interaction now ty eid esel elb act v s em pu ptl dm
        md).metrics.failed_interactions =
      (if s then t.metrics.failed_interactions
       else t.metrics.failed_interactions + 1) := by
  unfold InteractionTracker.track_interaction
  rcases t.current_page_id with - | pid <;> by_cases hs : s = true <;> simp [hs]

theorem track_interaction_verr (t : InteractionTracker) (now : Nat)
    (ty : InteractionType) (eid esel elb act v : Option String) (s : Bool)
    (em pu ptl : Option String) (dm : Option Nat)
    (md : List (String × String)) :
    (t.track_interaction now ty eid esel elb act v s em pu ptl dm
        md).metrics.validation_errors = t.metrics.validation_errors := by
  unfold InteractionTracker.track_interaction
  rcases t.current_page_id with - | pid <;> by_cases hs : s = true <;> simp [hs]

theorem track_field_fill_total (t : InteractionTracker) (now : Nat)
    (fid fn fl ft : String) (v : Option String) (s : Bool)
    (em : Option String) (dm : Option Nat) :
    (t.track_field_fill now fid fn fl ft v s em dm).metrics.total_interactions =
      t.metrics.total_interactions + 1 := by
  unfold InteractionTracker.track_field_fill
  dsimp only
  split
  · exact track_interaction_total _ _ _ _ _ _ _ _ _ _ _ _ _ _
  · split
    · exact track_interaction_total _ _ _ _ _ _ _ _ _ _ _ _ _ _
    · simp [track_interaction_total]

theorem track_field_fill_succ (t : InteractionTracker) (now : Nat)
    (fid fn fl ft : String) (v : Option String) (s : Bool)
    (em : Option String) (dm : Option Nat) :
    (t.track_field_fill now fid fn fl ft v s em
        dm).metrics.successful_interactions =
      (if s then t.metrics.successful_interactions + 1
       else t.metrics.successful_interactions) := by
  unfold InteractionTracker.track_field_fill
  dsimp only
  split
  · exact track_interaction_succ _ _ _ _ _ _ _ _ _ _ _ _ _ _
  · split
    · exact track_interaction_succ _ _ _ _ _ _ _ _ _ _ _ _ _ _
    · simp [track_interaction_succ]

theorem track_field_fill_failed (t : InteractionTracker) (now : Nat)
    (fid fn fl ft : String) (v : Option String) (s : Bool)
    (em : Option String) (dm : Option Nat) :
    (t.track_field_fill now fid fn fl ft v s em
        dm).metrics.failed_interactions =
      (if s then t.metrics.failed_interactions
       else t.metrics.failed_interactions + 1) := by
  unfold InteractionTracker.track_field_fill
  dsimp only
  split
  · exact track_interaction_failed _ _ _ _ _ _ _ _ _ _ _ _ _ _
  · split
    · exact track_interaction_failed _ _ _ _ _ _ _ _ _ _ _ _ _ _
    · simp [track_interaction_failed]

theorem track_field_fill_verr (t : InteractionTracker) (now : Nat)
    (fid fn fl ft : String) (v : Option String) (s : Bool)
    (em : Option String) (dm : Option Nat) :
    (t.track_field_fill now fid fn fl ft v s em
        dm).metrics.validation_errors = t.metrics.validation_errors := by
  unfold InteractionTracker.track_field_fill
  dsimp only
  split
  · exact track_interaction_verr _ _ _ _ _ _ _ _ _ _ _ _ _ _
  · split
    · exact track_interaction_verr _ _ _ _ _ _ _ _ _ _ _ _ _ _
    · simp [track_interaction_verr]

theorem track_button_click_total (t : InteractionTracker) (now : Nat)
    (bid : Option String) (bs bt : String) (s : Bool) (em : Option String)
    (dm : Option Nat) :
    (t.track_button_click now bid bs bt s em dm).metrics.total_interactions =
      t.metrics.total_interactions + 1 := by
  unfold InteractionTracker.track_button_click
  dsimp only
  split <;> simp [track_interaction_total]

theorem track_button_click_succ (t : InteractionTracker) (now : Nat)
    (bid : Option String) (bs bt : String) (s : Bool) (em : Option String)
    (dm : Option Nat) :
    (t.track_button_click now bid bs bt s em
        dm).metrics.successful_interactions =
      (if s then t.metrics.successful_interactions + 1
       else t.metrics.successful_interactions) := by
  unfold InteractionTracker.track_button_click
  dsimp only
  split <;> simp_all [track_interaction_succ]

theorem track_button_click_failed (t : InteractionTracker) (now : Nat)
    (bid : Option String) (bs bt : String) (s : Bool) (em : Option String)
    (dm : Option Nat) :
    (t.track_button_click now bid bs bt s em dm).metrics.failed_interactions =
      (if s then t.metrics.failed_interactions
       else t.metrics.failed_interactions + 1) := by
  unfold InteractionTracker.track_button_click
  dsimp only
  split <;> simp_all [track_interaction_failed]

theorem track_button_click_verr (t : InteractionTracker) (now : Nat)
    (bid : Option String) (bs bt : String) (s : Bool) (em : Option String)
    (dm : Option Nat) :
    (t.track_button_click now bid bs bt s em dm).metrics.validation_errors =
      t.metrics.validation_errors := by
  unfold InteractionTracker.track_button_click
  dsimp only
  split <;> simp [track_interaction_verr]

theorem set_current_page_total (t : InteractionTracker) (now : Nat)
    (pid pu ptl : String) :
    (t.set_current_page now pid pu ptl).metrics.total_interactions =
      t.metrics.total_interactions + 1 := by
  unfold InteractionTracker.set_current_page
  dsimp only
  split <;> split <;> simp [track_interaction_total]

theorem set_current_page_succ (t : InteractionTracker) (now : Nat)
    (pid pu ptl : String) :
    (t.set_current_page now pid pu ptl).metrics.successful_interactions =
      t.metrics.successful_interactions + 1 := by
  unfold InteractionTracker.set_current_page
  dsimp only
  split <;> split <;> simp [track_interaction_succ]

theorem set_current_page_failed (t : InteractionTracker) (now : Nat)
    (pid pu ptl : String) :
    (t.set_current_page now pid pu ptl).metrics.failed_interactions =
      t.metrics.failed_interactions := by
  unfold InteractionTracker.set_current_page
  dsimp only
  split <;> split <;> simp [track_interaction_failed]

theorem set_current_page_verr (t : InteractionTracker) (now : Nat)
    (pid pu ptl : String) :
    (t.set_current_page now pid pu ptl).metrics.validation_errors =
      t.metrics.validation_errors := by
  unfold InteractionTracker.set_current_page
  dsimp only
  split <;> split <;> simp [track_interaction_verr]

theorem finalize_session_counters (t : InteractionTracker) (now : Nat)
    (s : Bool) :
    (t.finalize_session now s).metrics.total_interactions =
        t.metrics.total_interactions ∧
    (t.finalize_session now s).metrics.successful_interactions =
        t.metrics.successful_interactions ∧
    (t.finalize_session now s).metrics.failed_interactions =
        t.metrics.failed_interactions ∧
    (t.finalize_session now s).metrics.validation_errors =
        t.metrics.validation_errors := by
  unfold InteractionTracker.finalize_session
  simp

/-- Session-level counter consistency invariant of the tracker. -/
def MetricsConsistent (t : InteractionTracker) : Prop :=
  t.metrics.total_interactions =
    t.metrics.successful_interactions + t.metrics.failed_interactions

theorem applyOp_consistent (t : InteractionTracker) (op : TrackerOp)
    (h : MetricsConsistent t) : MetricsConsistent (applyOp t op) := by
  unfold MetricsConsistent at h ⊢
  rcases op with ⟨now, ty, eid, esel, elb, act, v, s, em, pu, ptl, dm, md⟩ |
    ⟨now, fid, fn, fl, ft, v, s, em, dm⟩ | ⟨now, bid, bs, bt, s, em, dm⟩ |
    ⟨now, pid, pu, ptl⟩ | ⟨now, s⟩
  · simp only [applyOp]
    rw [track_interaction_total, track_interaction_succ,
      track_interaction_failed]
    by_cases hs : s = true <;> simp [hs] <;> omega
  · simp only [applyOp]
    rw [track_field_fill_total, track_field_fill_succ, track_field_fill_failed]
    by_cases hs : s = true <;> simp [hs] <;> omega
  · simp only [applyOp]
    rw [track_button_click_total, track_button_click_succ,
      track_button_click_failed]
    by_cases hs : s = true <;> simp [hs] <;> omega
  · simp only [applyOp]
    rw [set_current_page_total, set_current_page_succ, set_current_page_failed]
    omega
  · simp only [applyOp]
    obtain ⟨h1, h2, h3, -⟩ := finalize_session_counters t now s
    rw [h1, h2, h3]
    exact h

theorem runOps_consistent (ops : List TrackerOp) (t : InteractionTracker)
    (h : MetricsConsistent t) : MetricsConsistent (runOps t ops) := by
  induction ops generalizing t with
  | nil => exact h
  | cons op ops ih => exact ih _ (applyOp_consistent t op h)

/-- C8: for every tracker and after every sequence of track operations
(`track_interaction`, `track_field_fill`, `track_button_click`,
`set_current_page`, `finalize_session`), the session metrics satisfy
`total_interactions = successful_interactions + failed_interactions`. -/
theorem metrics_consistency (session_id template_id : String) (t0 : Nat)
    (ops : List TrackerOp) :
    (runOps (InteractionTracker.init session_id template_id t0)
        ops).metrics.total_interactions =
      (runOps (InteractionTracker.init session_id template_id t0)
          ops).metrics.successful_interactions +
        (runOps (InteractionTracker.init session_id template_id t0)
            ops).metrics.failed_interactions :=
  runOps_consistent ops (InteractionTracker.init session_id template_id t0) rfl

theorem applyOp_verr (t : InteractionTracker) (op : TrackerOp) :
    (applyOp t op).metrics.validation_errors =
      t.metrics.validation_errors := by
  rcases op with ⟨now, ty, eid, esel, elb, act, v, s, em, pu, ptl, dm, md⟩ |
    ⟨now, fid, fn, fl, ft, v, s, em, dm⟩ | ⟨now, bid, bs, bt, s, em, dm⟩ |
    ⟨now, pid, pu, ptl⟩ | ⟨now, s⟩
  · exact track_interaction_verr _ _ _ _ _ _ _ _ _ _ _ _ _ _
  · exact track_field_fill_verr _ _ _ _ _ _ _ _ _ _
  · exact track_button_click_verr _ _ _ _ _ _ _ _
  · exact set_current_page_verr _ _ _ _ _
  · exact (finalize_session_counters t now s).2.2.2

theorem runOps_verr (ops : List TrackerOp) (t : InteractionTracker) :
    (runOps t ops).metrics.validation_errors =
      t.metrics.validation_errors := by
  induction ops generalizing t with
  | nil => rfl
  | cons op ops ih => rw [runOps, List.foldl_cons, ← runOps, ih, applyOp_verr]

/-- C10: the session-level `validation_errors` counter is never incremented
by any tracker operation, so it is 0 after every operation sequence and the
`"validation_errors"` value in the exported metrics block is always 0; a
`VALIDATION_ERROR` interaction increments only the current page's
`PageMetrics.validation_errors` (other pages' metrics are untouched). -/
theorem session_validation_errors_always_zero (session_id template_id : String)
    (t0 : Nat) (ops : List TrackerOp) :
    (runOps (InteractionTracker.init session_id template_id t0)
        ops).metrics.validation_errors = 0 ∧
    ((runOps (InteractionTracker.init session_id template_id t0)
        ops).export_to_json).metrics.validation_errors = 0 ∧
    (∀ (t : InteractionTracker) (pid : String) (pm : PageMetrics) (now : Nat)
        (eid esel elb act v : Option String) (s : Bool)
        (em pu ptl : Option String) (dm : Option Nat)
        (md : List (String × String)),
      t.current_page_id = some pid →
      dictGet t.metrics.pages_metrics pid = some pm →
      (∃ pm2, dictGet (t.track_interaction now InteractionType.validation_error
            eid esel elb act v s em pu ptl dm md).metrics.pages_metrics pid =
          some pm2 ∧
        pm2.validation_errors = pm.validation_errors + 1) ∧
      (∀ q, q ≠ pid →
        dictGet (t.track_interaction now InteractionType.validation_error
            eid esel elb act v s em pu ptl dm md).metrics.pages_metrics q =
          dictGet t.metrics.pages_metrics q)) := by
  refine ⟨?_, ?_, ?_⟩
  · rw [runOps_verr]
    rfl
  · show (runOps (InteractionTracker.init session_id template_id t0)
        ops).metrics.validation_errors = 0
    rw [runOps_verr]
    rfl
  · intro t pid pm now eid esel elb act v s em pu ptl dm md hpid hd
    by_cases hs : s = true <;>
      simp only [InteractionTracker.track_interaction, hpid, hs, if_true,
        if_false, Bool.false_eq_true] <;>
      simp only [hd] <;>
      refine ⟨⟨_, dictGet_dictSet_self _ _ _, by simp⟩,
        fun q hq => dictGet_dictSet_ne _ _ _ _ hq⟩

/-- Page-metrics entry used to witness the validation-error bookkeeping. -/
def c10pm : PageMetrics := { page_id := "p1", page_url := "u", page_title := "" }

/-- Tracker positioned on page `p1`, used to witness the validation-error
bookkeeping. -/
def c10tracker : InteractionTracker :=
  { session_id := "s", template_id := "t", start_time := 0
    current_page_id := some "p1"
    metrics := { session_id := "s", template_id := "t", start_time := 0
                 pages_metrics := [("p1", c10pm)] } }

/-- Witness for the C10 theorem at a concrete operation sequence and tracker. -/
theorem session_validation_errors_always_zero_witness :
    (runOps (InteractionTracker.init "s" "t" 0)
        [TrackerOp.setCurrentPage 1 "p1" "u" "",
         TrackerOp.track 2 InteractionType.validation_error none none none
           none none false none none none none []]).metrics.validation_errors
      = 0 ∧
    (∃ pm2, dictGet (c10tracker.track_interaction 5
          InteractionType.validation_error none none none none none false none
          none none none []).metrics.pages_metrics "p1" = some pm2 ∧
      pm2.validation_errors = c10pm.validation_errors + 1) := by
  have h := session_validation_errors_always_zero "s" "t" 0
    [TrackerOp.setCurrentPage 1 "p1" "u" "",
     TrackerOp.track 2 InteractionType.validation_error none none none
       none none false none none none none []]
  exact ⟨h.1, (h.2.2 c10tracker "p1" c10pm 5 none none none none none false
    none none none none [] rfl rfl).1⟩

/-- C1 (code bug): `finalize_session` computes `total_required_fields` by
folding over the literal empty list (the source comments "Will be populated
from template"), so the zero-denominator guard always fires and
`completion_percentage` is never recomputed — it keeps its prior value, 0 for
any tracker built from `init`. In particular, at the claim's failing input (a
session with one correctly filled field against a template with two required
fields) finalization yields 0, not the claimed 50. -/
theorem finalize_completion_always_zero :
    (∀ (t : InteractionTracker) (now : Nat) (s : Bool),
      (t.finalize_session now s).metrics.completion_percentage =
        t.metrics.completion_percentage) ∧
    (InteractionTracker.finalize_session
        { InteractionTracker.init "s1" "t1" 0 with metrics :=
            { (InteractionTracker.init "s1" "t1" 0).metrics with
                fields_filled_correctly := 1 } } 1000
        true).metrics.completion_percentage = 0 := by
  constructor
  · intro t now s
    unfold InteractionTracker.finalize_session
    simp
  · unfold InteractionTracker.finalize_session InteractionTracker.init
    simp
